import Mathlib

/-
Verification of the TerraWarden drone offboard-control node
(`wpi_drone/vehicle_position_listener.py`).

The node's mutable fields are embedded as an explicit `NodeState` record and
each Python method becomes a state-transition function on it.  Floating-point
arithmetic is idealised over the reals; Python's float `%` is `pyMod` below.
Messages carry only the fields the node reads or writes.
-/

/-- Snapshot of the PX4 VehicleLocalPosition message fields used by the node:
`x`, `y`, `z` in NED meters and `heading` in radians.  The node initialises
its copy to a default-constructed message, whose numeric fields are all zero. -/
structure VehicleLocalPositionMsg where
  x : ℝ
  y : ℝ
  z : ℝ
  heading : ℝ

/-- Default-constructed VehicleLocalPosition (all fields zero), as built by
`VehicleLocalPosition()` in `__init__`. -/
def VehicleLocalPositionMsg.init : VehicleLocalPositionMsg := ⟨0, 0, 0, 0⟩

/-- Fields of the PX4 VehicleStatus message read by `vehicle_status_callback`. -/
structure VehicleStatusMsg where
  arming_state : ℕ
  takeoff_time : ℕ
  nav_state : ℕ
  timestamp : ℕ

/-- Fields of the TrajectorySetpoint message built by
`publish_trajectory_setpoint`. -/
structure TrajectorySetpointMsg where
  position : ℝ × ℝ × ℝ
  yaw : ℝ
  timestamp : ℕ

/-- Mutable state of `VehicleGlobalPositionListener`.  `published_setpoints`
is the trace of messages actually sent on the
`/fmu/in/trajectory_setpoint` topic via `trajectory_setpoint_publisher`. -/
structure NodeState where
  isArmed : Bool
  isFlying : Bool
  isOffboard : Bool
  arm_timestamp : Option ℕ
  flight_start_timestamp : Option ℕ
  initialization_counter : ℕ
  home_coord_offset : ℝ × ℝ × ℝ
  last_traj_setpoint_msg : Option TrajectorySetpointMsg
  status_var_temp : ℕ
  vehicle_status : Option VehicleStatusMsg
  vehicle_local_position : VehicleLocalPositionMsg
  published_setpoints : List TrajectorySetpointMsg

/-- State established by `__init__`: flags false, timestamps absent, counter 0,
home offset `[0,0,0]`, no setpoint, `status_var_temp = 0`, `vehicle_status`
never received (`None`), `vehicle_local_position` a default-constructed
message, and nothing published yet. -/
def initState : NodeState :=
  { isArmed := false
    isFlying := false
    isOffboard := false
    arm_timestamp := none
    flight_start_timestamp := none
    initialization_counter := 0
    home_coord_offset := (0, 0, 0)
    last_traj_setpoint_msg := none
    status_var_temp := 0
    vehicle_status := none
    vehicle_local_position := VehicleLocalPositionMsg.init
    published_setpoints := [] }

/-- Python float modulo over the reals: `x % y = x - y * floor (x / y)`,
so for `y > 0` the result lies in `[0, y)`. -/
noncomputable def pyMod (x y : ℝ) : ℝ := x - y * (⌊x / y⌋ : ℝ)

/-- Embeds `heading_to_px4_yaw`: take `heading % 360`, subtract `360` when the
result exceeds `180`, and scale by `π/180`.  The source returns this value
directly; no sign negation appears in the code. -/
noncomputable def heading_to_px4_yaw (heading : ℝ) : ℝ :=
  let h1 := pyMod heading 360
  let h2 := if h1 > 180 then h1 - 360 else h1
  h2 * (Real.pi / 180)

/-- Embeds `ned_point_from_flu_offset`: rotate the forward/left components of
the FLU offset by the yaw read from `vehicle_local_position.heading`, negate
the up component, and add elementwise to `curr_ned_pos`. -/
noncomputable def ned_point_from_flu_offset (s : NodeState)
    (curr_ned_pos offset_flu : ℝ × ℝ × ℝ) : ℝ × ℝ × ℝ :=
  let yaw_current := s.vehicle_local_position.heading
  let rotated_flu_x := offset_flu.1 * Real.cos yaw_current
      + offset_flu.2.1 * Real.sin yaw_current
  let rotated_flu_y := offset_flu.1 * Real.sin yaw_current
      - offset_flu.2.1 * Real.cos yaw_current
  let rotated_flu_z := offset_flu.2.2
  (curr_ned_pos.1 + rotated_flu_x,
   curr_ned_pos.2.1 + rotated_flu_y,
   curr_ned_pos.2.2 + (-rotated_flu_z))

/-- Embeds `publish_trajectory_setpoint`: build a TrajectorySetpoint message
at `position + home_coord_offset`, with yaw either the explicit argument
converted from degrees to radians or else the current heading, stamped with
the clock value, and store it in `last_traj_setpoint_msg`.  The call
`trajectory_setpoint_publisher.publish(msg)` is commented out in the source,
so the outbound trace `published_setpoints` is left unchanged. -/
noncomputable def publish_trajectory_setpoint (s : NodeState)
    (position : ℝ × ℝ × ℝ) (yaw : Option ℝ) (now : ℕ) : NodeState :=
  let msg : TrajectorySetpointMsg :=
    { position := (position.1 + s.home_coord_offset.1,
                   position.2.1 + s.home_coord_offset.2.1,
                   position.2.2 + s.home_coord_offset.2.2)
      yaw := match yaw with
             | some y => y * (Real.pi / 180)
             | none => s.vehicle_local_position.heading
      timestamp := now }
  { s with last_traj_setpoint_msg := some msg }

/-- Embeds `get_current_ned_pos`: current local position minus the home
coordinate offset, componentwise. -/
noncomputable def get_current_ned_pos (s : NodeState) : ℝ × ℝ × ℝ :=
  (s.vehicle_local_position.x - s.home_coord_offset.1,
   s.vehicle_local_position.y - s.home_coord_offset.2.1,
   s.vehicle_local_position.z - s.home_coord_offset.2.2)

/-- Embeds `get_ned_pos`: a target position minus the home coordinate offset,
componentwise. -/
noncomputable def get_ned_pos (s : NodeState) (target : ℝ × ℝ × ℝ) : ℝ × ℝ × ℝ :=
  (target.1 - s.home_coord_offset.1,
   target.2.1 - s.home_coord_offset.2.1,
   target.2.2 - s.home_coord_offset.2.2)

/-- Embeds `get_traj_setpoint`: `None` when no setpoint message was ever
recorded, otherwise the recorded absolute position converted back to the
home-relative frame. -/
noncomputable def get_traj_setpoint (s : NodeState) : Option (ℝ × ℝ × ℝ) :=
  match s.last_traj_setpoint_msg with
  | none => none
  | some m => some (get_ned_pos s m.position)

/-- Embeds `is_at_position`: strict comparison of the Euclidean distance
between the current home-relative position and `target` against
`threshold`. -/
noncomputable def is_at_position (s : NodeState) (target : ℝ × ℝ × ℝ)
    (threshold : ℝ) : Prop :=
  Real.sqrt (((get_current_ned_pos s).1 - target.1) ^ 2
      + ((get_current_ned_pos s).2.1 - target.2.1) ^ 2
      + ((get_current_ned_pos s).2.2 - target.2.2) ^ 2) < threshold

/-- Embeds `is_at_traj_setpoint`: `False` when no setpoint was ever recorded,
otherwise `is_at_position` on the stored setpoint brought back to the
home-relative frame. -/
noncomputable def is_at_traj_setpoint (s : NodeState) (threshold : ℝ) : Prop :=
  match get_traj_setpoint s with
  | none => False
  | some tgt => is_at_position s tgt threshold

/-- Embeds `vehicle_local_position_callback`: replace the stored position
snapshot wholesale. -/
def vehicle_local_position_callback (s : NodeState)
    (m : VehicleLocalPositionMsg) : NodeState :=
  { s with vehicle_local_position := m }

/-- Embeds `vehicle_status_callback`: store the status message, derive the
three readiness flags, latch `arm_timestamp` on arming and clear it together
with `initialization_counter` when not armed, and latch
`flight_start_timestamp` plus `home_coord_offset` on the start of flight,
clearing the former when not flying. -/
def vehicle_status_callback (s : NodeState) (vs : VehicleStatusMsg) : NodeState :=
  let s1 := { s with vehicle_status := some vs
                     isArmed := vs.arming_state == 2
                     isFlying := decide (0 < vs.takeoff_time)
                     isOffboard := vs.nav_state == 14 }
  let s2 :=
    if s1.isArmed then
      (if s1.arm_timestamp = none then
        { s1 with arm_timestamp := some vs.timestamp }
       else s1)
    else
      { s1 with arm_timestamp := none, initialization_counter := 0 }
  if s2.isFlying then
    (if s2.flight_start_timestamp = none then
      { s2 with flight_start_timestamp := some vs.timestamp
                home_coord_offset := (s2.vehicle_local_position.x,
                                      s2.vehicle_local_position.y,
                                      s2.vehicle_local_position.z) }
     else s2)
  else
    { s2 with flight_start_timestamp := none }

open Classical in
/-- Embeds `timer_callback`: after the unconditional heartbeat (an external
emission with no effect on this state), return unchanged unless a vehicle
status was received; then, only while armed, flying and in offboard mode,
either keep incrementing `initialization_counter` up to 50 or run one step of
the `status_var_temp` sequence (0: log readiness; 1: record the right-offset
setpoint; 2/4: wait for arrival within 0.05 m; 3: record the left-offset
setpoint; 5: log completion; 6: nothing). -/
noncomputable def timer_callback (s : NodeState) (now : ℕ) : NodeState :=
  match s.vehicle_status with
  | none => s
  | some _ =>
    if s.isArmed && s.isFlying && s.isOffboard then
      if 50 ≤ s.initialization_counter then
        if s.status_var_temp = 0 then
          { s with status_var_temp := 1 }
        else if s.status_var_temp = 1 then
          { publish_trajectory_setpoint s
              (ned_point_from_flu_offset s (get_current_ned_pos s) (0, -1, 0))
              none now
            with status_var_temp := 2 }
        else if s.status_var_temp = 2 then
          if is_at_traj_setpoint s 0.05 then { s with status_var_temp := 3 } else s
        else if s.status_var_temp = 3 then
          { publish_trajectory_setpoint s
              (ned_point_from_flu_offset s (get_current_ned_pos s) (0, 1, 0))
              none now
            with status_var_temp := 4 }
        else if s.status_var_temp = 4 then
          if is_at_traj_setpoint s 0.05 then { s with status_var_temp := 5 } else s
        else if s.status_var_temp = 5 then
          { s with status_var_temp := 6 }
        else s
      else
        { s with initialization_counter := s.initialization_counter + 1 }
    else s

/-- Concrete disarmed status message used by witnesses: arming_state 1
(disarmed), takeoff_time 5 (flying), nav_state 14 (offboard). -/
def wStatusDisarm : VehicleStatusMsg := ⟨1, 5, 14, 1000⟩

/-- Concrete armed status message used by witnesses. -/
def wReadyStatus : VehicleStatusMsg := ⟨2, 5, 14, 1000⟩

/-- Concrete armed mid-mission state used by witnesses. -/
def wArmedState : NodeState :=
  { initState with isArmed := true, status_var_temp := 3, initialization_counter := 7 }

/-- Concrete state with readiness lost, used by witnesses. -/
def wNotReadyState : NodeState :=
  { initState with vehicle_status := some wStatusDisarm
                   status_var_temp := 4
                   initialization_counter := 60 }

/-- Concrete ready state at the final mission step with its debounce counter
reset, as after a disarm/re-arm cycle. -/
def wDoneState : NodeState :=
  { initState with vehicle_status := some wReadyStatus
                   isArmed := true
                   isFlying := true
                   isOffboard := true
                   status_var_temp := 6
                   initialization_counter := 0 }

/-- Helper: Python modulo by a positive real is nonnegative. -/
theorem pyMod_nonneg (x y : ℝ) (hy : 0 < y) : 0 ≤ pyMod x y := by
  have h1 : (⌊x / y⌋ : ℝ) ≤ x / y := Int.floor_le _
  have h2 : y * (⌊x / y⌋ : ℝ) ≤ y * (x / y) := mul_le_mul_of_nonneg_left h1 hy.le
  have h3 : y * (x / y) = x := by field_simp
  unfold pyMod
  linarith

/-- Helper: Python modulo by a positive real is below the modulus. -/
theorem pyMod_lt (x y : ℝ) (hy : 0 < y) : pyMod x y < y := by
  have h1 : x / y < (⌊x / y⌋ : ℝ) + 1 := Int.lt_floor_add_one _
  have h2 : y * (x / y) < y * ((⌊x / y⌋ : ℝ) + 1) := by
    exact mul_lt_mul_of_pos_left h1 hy
  have h3 : y * (x / y) = x := by field_simp
  have h4 : y * ((⌊x / y⌋ : ℝ) + 1) = y * (⌊x / y⌋ : ℝ) + y := by ring
  unfold pyMod
  linarith

/-- C1: for every current NED position, FLU offset and the yaw read from the
position estimate, `ned_point_from_flu_offset` returns exactly
`(px + f·cos ψ + l·sin ψ, py + f·sin ψ − l·cos ψ, pz − u)`. -/
theorem C1_flu_to_ned_formula (s : NodeState) (px py pz f l u : ℝ) :
    ned_point_from_flu_offset s (px, py, pz) (f, l, u) =
      (px + (f * Real.cos s.vehicle_local_position.heading
             + l * Real.sin s.vehicle_local_position.heading),
       py + (f * Real.sin s.vehicle_local_position.heading
             - l * Real.cos s.vehicle_local_position.heading),
       pz - u) := by
  have hz : pz - u = pz + (-u) := by ring
  rw [hz]
  rfl

/-- C2 is false as stated: at zero yaw the transform maps the FLU offset
`(0, −1, 0)` from position `(0,0,0)` to `(0, +1, 0)`, not to
`pos + (0, −1, 0) = (0, −1, 0)`. -/
theorem C2_counterexample :
    ned_point_from_flu_offset initState (0, 0, 0) (0, -1, 0) ≠
      ((0 : ℝ), (-1 : ℝ), (0 : ℝ)) := by
  intro h
  have h2 := congrArg (fun p : ℝ × ℝ × ℝ => p.2.1) h
  simp only [ned_point_from_flu_offset, initState, VehicleLocalPositionMsg.init,
    Real.cos_zero, Real.sin_zero] at h2
  norm_num at h2

/-- C2 (amended): at zero yaw the transform applied to the FLU offset
`(0, −1, 0)` returns exactly `pos + (0, +1, 0)`: with the code's rotation
formula `rotatedY = fwd·sin(yaw) − left·cos(yaw)`, a left component of `−1`
maps to east-positive. -/
theorem C2_left_offset_at_zero_yaw (s : NodeState) (px py pz : ℝ)
    (h : s.vehicle_local_position.heading = 0) :
    ned_point_from_flu_offset s (px, py, pz) (0, -1, 0) = (px, py + 1, pz) := by
  simp only [ned_point_from_flu_offset, h, Real.cos_zero, Real.sin_zero,
    Prod.mk.injEq]
  norm_num

/-- Witness for the amended C2 at the initial state, whose heading is zero. -/
theorem C2_left_offset_at_zero_yaw_witness :
    ned_point_from_flu_offset initState (2, 3, 4) (0, -1, 0) =
      ((2 : ℝ), (3 : ℝ) + 1, (4 : ℝ)) :=
  C2_left_offset_at_zero_yaw initState 2 3 4 rfl

/-- C3 is false as stated: the code returns the normalized heading converted
to radians without negating it, so `heading_to_px4_yaw 90` is `+π/2`, not the
negated value `−(90·π/180)` the claim requires. -/
theorem C3_counterexample :
    ¬ (heading_to_px4_yaw 90 = -(90 * (Real.pi / 180))) := by
  intro h
  have hm : pyMod 90 360 = 90 := by
    have hf : ⌊(90 : ℝ) / 360⌋ = 0 := by
      rw [Int.floor_eq_zero_iff]
      constructor <;> norm_num
    unfold pyMod
    rw [hf]
    norm_num
  have h1 : heading_to_px4_yaw 90 = 90 * (Real.pi / 180) := by
    simp only [heading_to_px4_yaw]
    rw [hm, if_neg (by norm_num : ¬ (90 : ℝ) > 180)]
  rw [h1] at h
  have hpi := Real.pi_pos
  nlinarith

/-- C3 (amended): `heading_to_px4_yaw` normalizes the heading modulo 360,
subtracts 360 when the result exceeds 180, and converts to radians by scaling
with `π/180`, with no sign negation, producing a value in `(−π, π]`. -/
theorem C3_heading_to_yaw_range (h : ℝ) :
    heading_to_px4_yaw h =
      (if pyMod h 360 > 180 then pyMod h 360 - 360 else pyMod h 360)
        * (Real.pi / 180)
    ∧ -Real.pi < heading_to_px4_yaw h ∧ heading_to_px4_yaw h ≤ Real.pi := by
  have hm0 : 0 ≤ pyMod h 360 := pyMod_nonneg h 360 (by norm_num)
  have hm1 : pyMod h 360 < 360 := pyMod_lt h 360 (by norm_num)
  have hpi := Real.pi_pos
  have hscale : (180 : ℝ) * (Real.pi / 180) = Real.pi := by field_simp
  refine ⟨rfl, ?_, ?_⟩ <;>
    simp only [heading_to_px4_yaw] <;>
    split_ifs with hgt
  · nlinarith [mul_pos (show (0 : ℝ) < pyMod h 360 - 360 + 360 - 180 by linarith)
      (show (0 : ℝ) < Real.pi / 180 by positivity)]
  · nlinarith [mul_nonneg hm0 (show (0 : ℝ) ≤ Real.pi / 180 by positivity)]
  · nlinarith [mul_pos (show (0 : ℝ) < 360 - pyMod h 360 by linarith)
      (show (0 : ℝ) < Real.pi / 180 by positivity)]
  · nlinarith [mul_le_mul_of_nonneg_right (le_of_not_lt hgt)
      (show (0 : ℝ) ≤ Real.pi / 180 by positivity)]

/-- C4: the arrival query holds exactly when a setpoint has been recorded and
the Euclidean distance between the current home-relative position and the
stored absolute setpoint brought back to the home-relative frame is strictly
below the threshold; with no recorded setpoint it never holds, and a distance
exactly equal to the threshold does not count. -/
theorem C4_arrival_iff (s : NodeState) (t : ℝ) :
    is_at_traj_setpoint s t ↔
      ∃ msg, s.last_traj_setpoint_msg = some msg ∧
        Real.sqrt (((get_current_ned_pos s).1 - (get_ned_pos s msg.position).1) ^ 2
            + ((get_current_ned_pos s).2.1 - (get_ned_pos s msg.position).2.1) ^ 2
            + ((get_current_ned_pos s).2.2 - (get_ned_pos s msg.position).2.2) ^ 2)
          < t := by
  cases hm : s.last_traj_setpoint_msg with
  | none =>
      simp [is_at_traj_setpoint, get_traj_setpoint, hm]
  | some m =>
      simp [is_at_traj_setpoint, get_traj_setpoint, hm, is_at_position]

/-- C5 is a code bug: `publish_trajectory_setpoint` records the message in
`last_traj_setpoint_msg`, but the publish call on
`trajectory_setpoint_publisher` is commented out in the source, so the
outbound trajectory-setpoint channel never receives it. -/
theorem C5_record_does_not_publish (s : NodeState) (pos : ℝ × ℝ × ℝ)
    (yaw : Option ℝ) (now : ℕ) :
    (publish_trajectory_setpoint s pos yaw now).published_setpoints
        = s.published_setpoints ∧
    (publish_trajectory_setpoint s pos yaw now).last_traj_setpoint_msg ≠ none := by
  constructor
  · rfl
  · simp [publish_trajectory_setpoint]

/-- C6: recording a setpoint stores `target + homeOffset` componentwise as the
absolute commanded position and resolves the yaw to the explicit yaw
converted from degrees to radians when given, or otherwise to the current
heading verbatim. -/
theorem C6_setpoint_record_contents (s : NodeState) (tx ty tz : ℝ)
    (yaw : Option ℝ) (now : ℕ) :
    (publish_trajectory_setpoint s (tx, ty, tz) yaw now).last_traj_setpoint_msg =
      some { position := (tx + s.home_coord_offset.1,
                          ty + s.home_coord_offset.2.1,
                          tz + s.home_coord_offset.2.2)
             yaw := match yaw with
                    | some y => y * (Real.pi / 180)
                    | none => s.vehicle_local_position.heading
             timestamp := now } := rfl

/-- C7: on a vehicle-status update whose armed flag goes from true to false,
the callback clears `arm_timestamp` to absent and resets
`initialization_counter` to 0, while leaving the mission step identifier
`status_var_temp` unchanged. -/
theorem C7_disarm_resets (s : NodeState) (vs : VehicleStatusMsg)
    (hPrev : s.isArmed = true) (hNow : vs.arming_state ≠ 2) :
    (vehicle_status_callback s vs).arm_timestamp = none ∧
    (vehicle_status_callback s vs).initialization_counter = 0 ∧
    (vehicle_status_callback s vs).status_var_temp = s.status_var_temp := by
  have hb : (vs.arming_state == 2) = false := by
    simp [hNow]
  unfold vehicle_status_callback
  simp only [hb]
  split_ifs <;> simp_all

/-- Witness for C7 at a concrete armed mid-mission state receiving a disarmed
status message. -/
theorem C7_disarm_resets_witness :
    (vehicle_status_callback wArmedState wStatusDisarm).arm_timestamp = none ∧
    (vehicle_status_callback wArmedState wStatusDisarm).initialization_counter = 0 ∧
    (vehicle_status_callback wArmedState wStatusDisarm).status_var_temp
        = wArmedState.status_var_temp :=
  C7_disarm_resets wArmedState wStatusDisarm rfl (by decide)

/-- C8: on a control-loop tick where armed, flying and offboard-enabled do not
all hold, `timer_callback` changes neither the mission step identifier nor
the debounce counter, and neither records nor emits any setpoint. -/
theorem C8_not_ready_idles (s : NodeState) (now : ℕ)
    (h : ¬ (s.isArmed = true ∧ s.isFlying = true ∧ s.isOffboard = true)) :
    (timer_callback s now).status_var_temp = s.status_var_temp ∧
    (timer_callback s now).initialization_counter = s.initialization_counter ∧
    (timer_callback s now).last_traj_setpoint_msg = s.last_traj_setpoint_msg ∧
    (timer_callback s now).published_setpoints = s.published_setpoints := by
  have hid : timer_callback s now = s := by
    unfold timer_callback
    cases hv : s.vehicle_status with
    | none => rfl
    | some v =>
        have hb : (s.isArmed && s.isFlying && s.isOffboard) = false := by
          cases ha : s.isArmed <;> cases hf : s.isFlying <;>
            cases ho : s.isOffboard <;> simp_all
        simp [hb]
  rw [hid]
  exact ⟨rfl, rfl, rfl, rfl⟩

/-- Witness for C8 at a concrete not-ready state (status received but
disarmed) with the counter past threshold and the mission mid-flight. -/
theorem C8_not_ready_idles_witness :
    (timer_callback wNotReadyState 0).status_var_temp
        = wNotReadyState.status_var_temp ∧
    (timer_callback wNotReadyState 0).initialization_counter
        = wNotReadyState.initialization_counter ∧
    (timer_callback wNotReadyState 0).last_traj_setpoint_msg
        = wNotReadyState.last_traj_setpoint_msg ∧
    (timer_callback wNotReadyState 0).published_setpoints
        = wNotReadyState.published_setpoints :=
  C8_not_ready_idles wNotReadyState 0 (by decide)

/-- C9 is false as stated: in the initial state no position estimate was ever
received (the stored snapshot is the default-constructed all-zero message),
yet after recording a setpoint at the zero position the arrival check reports
arrived, because the check compares against the default zeros rather than
degrading to not-arrived. -/
theorem C9_counterexample :
    is_at_traj_setpoint (publish_trajectory_setpoint initState (0, 0, 0) none 0)
      0.05 := by
  show is_at_position _ _ _
  simp only [is_at_position, get_current_ned_pos, get_ned_pos,
    publish_trajectory_setpoint, initState, VehicleLocalPositionMsg.init]
  norm_num

/-- C9 (amended): in the initial state, where no position estimate and no
setpoint have been received, every arrival check returns not-arrived; the
guard is the absence of a recorded setpoint, not of position telemetry —
once a setpoint is recorded the check runs against the default all-zero
position snapshot and can report arrived. -/
theorem C9_no_setpoint_not_arrived (t : ℝ) : ¬ is_at_traj_setpoint initState t := by
  simp [is_at_traj_setpoint, get_traj_setpoint, initState]

/-- C10 is false as stated: at the final mission step a tick can still change
mission state — here, with the debounce counter reset by an earlier disarm,
a tick at step 6 increments the counter (part of the mission state alongside
the step identifier) from 0 to 1. -/
theorem C10_counterexample :
    wDoneState.status_var_temp = 6 ∧
    (timer_callback wDoneState 0).initialization_counter
      ≠ wDoneState.initialization_counter := by
  constructor
  · rfl
  · simp [timer_callback, wDoneState, initState]

/-- C10 (amended): across ticks and telemetry callbacks the mission step
identifier never decreases and changes by at most one per tick, the status
callback never changes it, and once it reaches its final value 6 no tick
changes it or records or emits any setpoint — though the debounce counter may
still change at the final step after a disarm reset. -/
theorem C10_step_monotone (s : NodeState) (now : ℕ) (vs : VehicleStatusMsg)
    (m : VehicleLocalPositionMsg) :
    s.status_var_temp ≤ (timer_callback s now).status_var_temp ∧
    (timer_callback s now).status_var_temp ≤ s.status_var_temp + 1 ∧
    (vehicle_status_callback s vs).status_var_temp = s.status_var_temp ∧
    (vehicle_local_position_callback s m).status_var_temp = s.status_var_temp ∧
    (s.status_var_temp = 6 →
      (timer_callback s now).status_var_temp = 6 ∧
      (timer_callback s now).last_traj_setpoint_msg = s.last_traj_setpoint_msg ∧
      (timer_callback s now).published_setpoints = s.published_setpoints) := by
  have hstatus : (vehicle_status_callback s vs).status_var_temp
      = s.status_var_temp := by
    simp only [vehicle_status_callback]
    split_ifs <;> rfl
  have hpos : (vehicle_local_position_callback s m).status_var_temp
      = s.status_var_temp := rfl
  unfold timer_callback
  cases hv : s.vehicle_status with
  | none =>
      exact ⟨le_refl _, Nat.le_succ _, hstatus, hpos, fun h6 => ⟨h6, rfl, rfl⟩⟩
  | some v =>
      split_ifs <;>
        simp_all [publish_trajectory_setpoint]

/-- Witness for the amended C10 at the concrete final-step state, discharging
the final-value hypothesis. -/
theorem C10_step_monotone_witness :
    (timer_callback wDoneState 0).status_var_temp = 6 ∧
    (timer_callback wDoneState 0).last_traj_setpoint_msg
        = wDoneState.last_traj_setpoint_msg :=
  ⟨((C10_step_monotone wDoneState 0 wReadyStatus VehicleLocalPositionMsg.init).2.2.2.2
      rfl).1,
   ((C10_step_monotone wDoneState 0 wReadyStatus VehicleLocalPositionMsg.init).2.2.2.2
      rfl).2.1⟩
